import Mathlib

/- Verification development for the Compliance Analysis Engine of this
   repository: the handleAnalysis endpoint handler in
   src/app/api/simple/route.ts together with its helpers (prompt assembly,
   reply parsing, result normalization and the per-question batch loop).

   Modeling conventions.
   Strings are modeled as lists of characters (JS strings operate on UTF-16
   code units; every input considered below is ASCII, where the two views
   coincide).  JSON numbers are modeled as exact rationals.  JS NaN is
   modeled as the none value of an Option where it can arise.  The random
   result identifiers and wall-clock timestamps generated per result are
   pure nondeterministic noise and are omitted from the modeled result
   record; the random citation page drawn per successful question is passed
   in explicitly.  The network exchange performed by callGemini is modeled
   as an oracle mapping the question position and the prompt text to either
   a raw reply or a transport fault (an Except error), which models
   callGemini throwing. -/

/-- Character sequences: the model of JS strings. -/
abbrev Str := List Char

/-- The opening curly bracket character (code point 123). -/
def obr : Char := Char.ofNat 123

/-- The closing curly bracket character (code point 125). -/
def cbr : Char := Char.ofNat 125

/-- JSON values, as produced by a successful JSON.parse. -/
inductive Json where
  | null : Json
  | bool : Bool → Json
  | num : ℚ → Json
  | strv : Str → Json
  | arr : List Json → Json
  | obj : List (Str × Json) → Json

/-- JSON whitespace characters (space, linefeed, tab, carriage return). -/
def isWsChar (c : Char) : Bool := c == ' ' || c == '\n' || c == '\t' || c == '\r'

/-- Drop leading JSON whitespace. -/
def skipWs (s : Str) : Str := s.dropWhile isWsChar

/-- Value of a run of decimal digit characters. -/
def digitsToNat (ds : List Char) : Nat := ds.foldl (fun n c => 10 * n + (c.toNat - 48)) 0

/-- Consume a nonempty run of decimal digits, or fail. -/
def takeDigits (s : Str) : Option (List Char × Str) :=
  let p := s.span Char.isDigit
  if p.1.isEmpty then none else some p

/-- Strict JSON number literal: optional minus, integer part without a
redundant leading zero, optional fraction, optional exponent.  Returns the
exact rational value and the unconsumed remainder. -/
def parseJNum (s : Str) : Option (ℚ × Str) :=
  let signAndRest : Bool × Str :=
    match s with
    | '-' :: r => (true, r)
    | _ => (false, s)
  match takeDigits signAndRest.2 with
  | none => none
  | some (ds, r1) =>
    if 1 < ds.length ∧ ds.head? = some '0' then none
    else
      let withFrac : Option (ℚ × Str) :=
        match r1 with
        | '.' :: r2 =>
          match takeDigits r2 with
          | none => none
          | some (fs, r3) =>
            some ((digitsToNat ds : ℚ) + (digitsToNat fs : ℚ) / ((10 ^ fs.length : ℕ) : ℚ), r3)
        | _ => some ((digitsToNat ds : ℚ), r1)
      match withFrac with
      | none => none
      | some (qv, r4) =>
        let qs := if signAndRest.1 then -qv else qv
        match r4 with
        | c :: r5 =>
          if c == 'e' || c == 'E' then
            let expSignAndRest : Bool × Str :=
              match r5 with
              | '+' :: rr => (false, rr)
              | '-' :: rr => (true, rr)
              | _ => (false, r5)
            match takeDigits expSignAndRest.2 with
            | none => none
            | some (es, r7) =>
              let e : ℤ := if expSignAndRest.1 then -(digitsToNat es : ℤ) else (digitsToNat es : ℤ)
              some (qs * (10 : ℚ) ^ e, r7)
          else some (qs, r4)
        | [] => some (qs, [])

/-- Value of a hexadecimal digit character, if any. -/
def hexVal (c : Char) : Option Nat :=
  if '0' ≤ c ∧ c ≤ '9' then some (c.toNat - 48)
  else if 'a' ≤ c ∧ c ≤ 'f' then some (c.toNat - 87)
  else if 'A' ≤ c ∧ c ≤ 'F' then some (c.toNat - 55)
  else none

/-- Body of a JSON string after the opening quote: plain characters (raw
control characters are rejected, as in strict JSON) and the standard escape
sequences.  Returns the decoded characters and the remainder after the
closing quote. -/
def parseJStrBody : Nat → Str → Option (Str × Str)
  | 0, _ => none
  | fuel + 1, s =>
    match s with
    | [] => none
    | '"' :: r => some ([], r)
    | '\\' :: r =>
      match r with
      | [] => none
      | e :: r1 =>
        let esc : Option (Char × Str) :=
          if e == '"' then some ('"', r1)
          else if e == '\\' then some ('\\', r1)
          else if e == '/' then some ('/', r1)
          else if e == 'b' then some (Char.ofNat 8, r1)
          else if e == 'f' then some (Char.ofNat 12, r1)
          else if e == 'n' then some ('\n', r1)
          else if e == 'r' then some (Char.ofNat 13, r1)
          else if e == 't' then some ('\t', r1)
          else if e == 'u' then
            match r1 with
            | h1 :: h2 :: h3 :: h4 :: r2 =>
              match hexVal h1, hexVal h2, hexVal h3, hexVal h4 with
              | some a, some b, some c, some d =>
                some (Char.ofNat (((a * 16 + b) * 16 + c) * 16 + d), r2)
              | _, _, _, _ => none
            | _ => none
          else none
        match esc with
        | none => none
        | some (c, r2) =>
          match parseJStrBody fuel r2 with
          | some (cs, r3) => some (c :: cs, r3)
          | none => none
    | c :: r =>
      if c.toNat < 32 then none
      else
        match parseJStrBody fuel r with
        | some (cs, r2) => some (c :: cs, r2)
        | none => none

mutual

/-- JSON value parser mirroring the strict JSON.parse grammar, fueled for
termination (the fuel bound is supplied by jsonParse and is ample for every
input). -/
def parseVal : Nat → Str → Option (Json × Str)
  | 0, _ => none
  | fuel + 1, s =>
    match skipWs s with
    | [] => none
    | c :: r =>
      if c == '"' then
        match parseJStrBody fuel r with
        | some (cs, r1) => some (.strv cs, r1)
        | none => none
      else if c == obr then
        match skipWs r with
        | c1 :: r1 =>
          if c1 == cbr then some (.obj [], r1)
          else
            match parseMembers fuel (c1 :: r1) with
            | some (kvs, r2) => some (.obj kvs, r2)
            | none => none
        | [] => none
      else if c == '[' then
        match skipWs r with
        | c1 :: r1 =>
          if c1 == ']' then some (.arr [], r1)
          else
            match parseElems fuel (c1 :: r1) with
            | some (xs, r2) => some (.arr xs, r2)
            | none => none
        | [] => none
      else if c == 't' then
        match r with
        | 'r' :: 'u' :: 'e' :: r1 => some (.bool true, r1)
        | _ => none
      else if c == 'f' then
        match r with
        | 'a' :: 'l' :: 's' :: 'e' :: r1 => some (.bool false, r1)
        | _ => none
      else if c == 'n' then
        match r with
        | 'u' :: 'l' :: 'l' :: r1 => some (.null, r1)
        | _ => none
      else
        match parseJNum (c :: r) with
        | some (q, r1) => some (.num q, r1)
        | none => none

/-- One or more key-value members of a JSON object, up to and including the
closing bracket. -/
def parseMembers : Nat → Str → Option (List (Str × Json) × Str)
  | 0, _ => none
  | fuel + 1, s =>
    match skipWs s with
    | '"' :: r =>
      match parseJStrBody fuel r with
      | none => none
      | some (key, r1) =>
        match skipWs r1 with
        | ':' :: r2 =>
          match parseVal fuel r2 with
          | none => none
          | some (v, r3) =>
            match skipWs r3 with
            | c :: r4 =>
              if c == ',' then
                match parseMembers fuel r4 with
                | some (kvs, r5) => some ((key, v) :: kvs, r5)
                | none => none
              else if c == cbr then some ([(key, v)], r4)
              else none
            | [] => none
        | _ => none
    | _ => none

/-- One or more array elements, up to and including the closing bracket. -/
def parseElems : Nat → Str → Option (List Json × Str)
  | 0, _ => none
  | fuel + 1, s =>
    match parseVal fuel s with
    | none => none
    | some (v, r1) =>
      match skipWs r1 with
      | c :: r2 =>
        if c == ',' then
          match parseElems fuel r2 with
          | some (xs, r3) => some (v :: xs, r3)
          | none => none
        else if c == ']' then some ([v], r2)
        else none
      | [] => none

end

/-- Models JSON.parse applied to a candidate string: some is the decoded
value, none models the parse throwing a SyntaxError (including trailing
garbage after a complete value). -/
def jsonParse (s : Str) : Option Json :=
  match parseVal (s.length + 2) s with
  | some (j, rest) => if (skipWs rest).isEmpty then some j else none
  | none => none

/-- Models the greedy regular-expression match of a brace-delimited block
applied to the reply (route.ts line 239): the span from the first opening
brace to the last closing brace of the whole text, provided that closing
brace lies after that opening brace; none when the pattern has no match. -/
def firstToLastBrace (s : Str) : Option Str :=
  let t := s.dropWhile (fun c => !(c == obr))
  let u := (t.reverse.dropWhile (fun c => !(c == cbr))).reverse
  if u.isEmpty then none else some u

/-- Audit question record (the fields of the AuditQuestion interface that
the engine reads; see components.tsx and route.ts). -/
structure Question where
  id : Str
  number : Nat
  text : Str
  reference : Option Str

/-- Policy document record (the fields of the PolicyDocument interface the
engine reads; the upload timestamp is never read by the analysis path and
is omitted). -/
structure Policy where
  id : Str
  name : Str
  content : Str
  pages : Nat

/-- Citation record of an analysis result (route.ts lines 258-263 and
282-287).  The quoted text and relevance score are raw JS values taken from
the decoded payload and are therefore modeled as JSON values. -/
structure Citation where
  text : Json
  page : Nat
  fileName : Str
  relevanceScore : Json

/-- Analysis result record (route.ts lines 252-266 and 276-290).  The
random identifier and the creation timestamp are nondeterministic noise
and are not modeled.  confidence is an Option rational whose none value
models JS NaN (which Math.max propagates). -/
structure AnalysisResult where
  questionId : Str
  question : Str
  status : Json
  confidence : Option ℚ
  citations : List Citation
  reasoning : Option Json

/-- Dynamic property access payload.k on a decoded JSON value: undefined
(none) on a non-object; objects decoded by JSON.parse keep the last binding
of a duplicated key. -/
def getField (j : Json) (k : Str) : Option Json :=
  match j with
  | .obj kvs => (kvs.reverse.find? (fun kv => kv.1 == k)).map (fun kv => kv.2)
  | _ => none

/-- JS truthiness of a JSON value (JSON.parse never yields NaN, so a number
is falsy exactly when it is zero; a string exactly when it is empty). -/
def truthy : Json → Bool
  | .null => false
  | .bool b => b
  | .num q => decide (q ≠ 0)
  | .strv s => !s.isEmpty
  | .arr _ => true
  | .obj _ => true

/-- Models the JS expression v || d where v is a possibly-undefined field
value. -/
def jsOr (v : Option Json) (d : Json) : Json :=
  match v with
  | some x => if truthy x then x else d
  | none => d

/-- Trim leading and trailing whitespace. -/
def trimWs (s : Str) : Str := ((s.dropWhile isWsChar).reverse.dropWhile isWsChar).reverse

/-- Models the implicit JS string-to-number coercion for decimal numerals:
trimmed empty input coerces to 0, otherwise an optionally signed decimal
literal; anything else is NaN (none).  Exotic inputs (hexadecimal,
Infinity) are outside the fragment exercised by the pipeline and also map
to none. -/
def strToNum (s : Str) : Option ℚ :=
  let t := trimWs s
  if t.isEmpty then some (0 : ℚ)
  else
    let t2 : Str :=
      match t with
      | '+' :: r => r
      | _ => t
    match parseJNum t2 with
    | some (q, rest) => if rest.isEmpty then some q else none
    | none => none

/-- Models the implicit JS number coercion performed by Math.min on the
JSON values that can reach it; none models NaN.  Arrays coerce through
their string form; the one-element cases below cover the values reachable
in this pipeline. -/
def toNum : Json → Option ℚ
  | .num q => some q
  | .null => some 0
  | .bool b => some (if b then 1 else 0)
  | .strv s => strToNum s
  | .arr [] => some 0
  | .arr [.num q] => some q
  | .arr [.strv s] => strToNum s
  | .arr _ => none
  | .obj _ => none

/-- Math.max(0, Math.min(1, x)) on a non-NaN number. -/
def clamp01 (q : ℚ) : ℚ := max 0 (min 1 q)

/-- The confidence normalization of route.ts line 257:
Math.max(0, Math.min(1, analysisResult.confidence || 0.5)); Math.min and
Math.max propagate NaN, hence the Option.map. -/
def normConfidence (v : Option Json) : Option ℚ :=
  (toNum (jsOr v (Json.num (1/2)))).map clamp01

/-- Models policies[0]?.name || a fixed default (route.ts line 261). -/
def firstPolicyName : List Policy → Str
  | [] => ("policy.pdf".toList)
  | p :: _ => if p.name.isEmpty then ("policy.pdf".toList) else p.name

/-- Key of the status field of the decoded payload. -/
def statusKey : Str := ("status".toList)

/-- Key of the confidence field of the decoded payload. -/
def confidenceKey : Str := ("confidence".toList)

/-- Key of the reasoning field of the decoded payload. -/
def reasoningKey : Str := ("reasoning".toList)

/-- Key of the citation field of the decoded payload. -/
def citationKey : Str := ("citation".toList)

/-- The result normalization of route.ts lines 252-266: build the canonical
result record from the decoded (or fallback) payload.  page is the random
page number drawn for this result at line 260 (in 1..20), passed in
explicitly because it is nondeterministic. -/
def normalizeResult (q : Question) (policies : List Policy) (payload : Json) (page : Nat) :
    AnalysisResult :=
  { questionId := q.id
    question := q.text
    status := jsOr (getField payload statusKey) (Json.strv ("Maybe".toList))
    confidence := normConfidence (getField payload confidenceKey)
    citations := [{ text := jsOr (getField payload citationKey)
                      (Json.strv ("No specific citation provided".toList))
                    page := page
                    fileName := firstPolicyName policies
                    relevanceScore := jsOr (getField payload confidenceKey) (Json.num (1/2)) }]
    reasoning := getField payload reasoningKey }

/-- The fallback payload built when JSON.parse throws (route.ts lines
243-249): a degraded verdict whose citation is the first 200 characters of
the raw reply. -/
def fallbackPayload (reply : Str) : Json :=
  Json.obj [ (statusKey, Json.strv ("Maybe".toList))
           , (confidenceKey, Json.num (1/2))
           , (reasoningKey, Json.strv ("AI analysis completed but response format was unclear".toList))
           , (citationKey, Json.strv (reply.take 200)) ]

/-- Lines 236-241: select the greedy brace span when the pattern matches,
otherwise the whole reply, and JSON.parse the selection; none models the
parse throwing, which is answered by the fallback payload. -/
def analysisPayload (reply : Str) : Option Json :=
  jsonParse ((firstToLastBrace reply).getD reply)

/-- The degraded result pushed by the per-question catch block (route.ts
lines 276-290) when the backend call or the later field accesses throw. -/
def transportFallback (q : Question) : AnalysisResult :=
  { questionId := q.id
    question := q.text
    status := Json.strv ("Maybe".toList)
    confidence := some (1/2)
    citations := [{ text := Json.strv ("Analysis failed - please try again".toList)
                    page := 1
                    fileName := ("error".toList)
                    relevanceScore := Json.num (1/2) }]
    reasoning := some (Json.strv ("Analysis failed due to technical error".toList)) }

/-- One iteration of the per-question loop (route.ts lines 204-292).  The
call argument is the outcome of Gemini exchange for this question: an
Except error models callGemini throwing (missing key mid-call, transport
fault, non-success response), the ok value is the raw reply text.  A
decoded null payload makes the later property access analysisResult.status
throw a TypeError, which the per-question catch converts into the same
degraded result as a transport fault. -/
def processQuestion (policies : List Policy) (q : Question) (call : Except Unit Str)
    (page : Nat) : AnalysisResult :=
  match call with
  | .error _ => transportFallback q
  | .ok reply =>
    match analysisPayload reply with
    | none => normalizeResult q policies (fallbackPayload reply) page
    | some .null => transportFallback q
    | some j => normalizeResult q policies j page

/-- Fixed framing of the prompt before the question text (route.ts line
211). -/
def promptHead : Str :=
  ("You are a compliance analyst. Analyze whether the following question is satisfied by the provided policies.\n\nQuestion: ".toList)

/-- Fixed framing between the question text and the policy context. -/
def promptMid : Str := ("\n\nPolicy Documents:\n".toList)

/-- Fixed output contract and guidelines after the policy context. -/
def promptTail : Str :=
  ("\n\nRespond with a JSON object containing:\n\x7b\n  \"status\": \"Yes|No|Maybe\",\n  \"confidence\": 0.85,\n  \"reasoning\": \"Brief explanation\",\n  \"citation\": \"Relevant quote from policies\"\n\x7d\n\nGuidelines:\n- \"Yes\": Policy clearly addresses the requirement\n- \"No\": Policy clearly does not address or contradicts it\n- \"Maybe\": Policy partially addresses or is ambiguous\n- Confidence: 0.0 to 1.0\n- Citation: Exact quote from the most relevant policy section".toList)

/-- Label one policy document with its display name (route.ts lines
207-208). -/
def policyLabel (p : Policy) : Str :=
  ("[Document: ".toList) ++ p.name ++ ("]\n".toList) ++ p.content

/-- JS Array.join with a separator. -/
def joinSep (sep : Str) : List Str → Str
  | [] => []
  | [x] => x
  | x :: xs => x ++ sep ++ joinSep sep xs

/-- The policy context of route.ts lines 207-209: concatenate the labeled
documents and truncate the concatenation to the 8000-character budget. -/
def policyContext (ps : List Policy) : Str :=
  (joinSep ("\n\n".toList) (ps.map policyLabel)).take 8000

/-- The full prompt passed to callGemini for one question (route.ts lines
211-231). -/
def buildPrompt (q : Question) (ps : List Policy) : Str :=
  promptHead ++ q.text ++ promptMid ++ policyContext ps ++ promptTail

/-- The sequential per-question loop of handleAnalysis, carrying the
position so the oracle can be consulted per question; the i-th exchange is
callGemini applied to the prompt built for the i-th question. -/
def analysisLoop (policies : List Policy) (oracle : Nat → Str → Except Unit Str)
    (pg : Nat → Nat) : List Question → Nat → List AnalysisResult
  | [], _ => []
  | q :: qs, i =>
    processQuestion policies q (oracle i (buildPrompt q policies)) (pg i) ::
      analysisLoop policies oracle pg qs (i + 1)

/-- Models !GOOGLE_API_KEY (route.ts line 194): the credential is falsy
when the environment variable is unset or the empty string. -/
def keyMissing : Option Str → Bool
  | none => true
  | some s => s.isEmpty

/-- The two whole-batch error responses of handleAnalysis: the 400 response
of line 188 and the 500 response of line 195. -/
inductive ApiError where
  | invalidInput : ApiError
  | backendUnavailable : ApiError
deriving DecidableEq

/-- handleAnalysis (route.ts lines 183-299).  The request body fields are
Option lists: none models an absent or otherwise falsy field (rejected by
the truthiness check on line 187); a present array, even an empty one, is
truthy and passes that check.  The oracle gives the outcome of each
backend exchange and pg the per-question random page draw. -/
def handleAnalysis (questions : Option (List Question)) (policies : Option (List Policy))
    (apiKey : Option Str) (oracle : Nat → Str → Except Unit Str) (pg : Nat → Nat) :
    Except ApiError (List AnalysisResult) :=
  match questions with
  | none => .error .invalidInput
  | some qs =>
    match policies with
    | none => .error .invalidInput
    | some ps =>
      if keyMissing apiKey then .error .backendUnavailable
      else .ok (analysisLoop ps oracle pg qs 0)

/-- Concrete test question used by the witnesses and counterexamples. -/
def q0 : Question :=
  { id := ("q1".toList), number := 1
    text := ("Does the policy establish data retention rules?".toList), reference := none }

/-- Second concrete test question. -/
def q1 : Question :=
  { id := ("q2".toList), number := 2
    text := ("Does the policy require vendor assessments?".toList), reference := none }

/-- Third concrete test question. -/
def q2 : Question :=
  { id := ("q3".toList), number := 3
    text := ("Does the policy mandate employee training?".toList), reference := none }

/-- Concrete test policy document. -/
def p0 : Policy :=
  { id := ("p1".toList), name := ("Policy.pdf".toList)
    content := ("Data is retained for five years.".toList), pages := 3 }

/-- A policy document whose labeled text alone exceeds the context budget. -/
def bigPolicy : Policy :=
  { id := ("p2".toList), name := ("Big.pdf".toList)
    content := List.replicate 9000 'a', pages := 100 }

/-- Backend oracle answering every exchange with a fixed well-formed
verdict payload. -/
def oracleOk : Nat → Str → Except Unit Str :=
  fun _ _ => .ok ("\x7b\"status\":\"Yes\",\"confidence\":1,\"citation\":\"ok\"\x7d".toList)

/-- Backend oracle raising a transport fault on the second question and
behaving like oracleOk elsewhere. -/
def oracleFail1 : Nat → Str → Except Unit Str :=
  fun i => if i = 1 then fun _ => .error () else oracleOk i

/-- Fixed page draw used by the witnesses. -/
def pg0 : Nat → Nat := fun _ => 1

/-- Backend reply carrying an unrecognized status and an out-of-range
confidence. -/
def replyUnknown : Str :=
  ("\x7b\"status\":\"Unknown\",\"confidence\":5,\"citation\":\"x\"\x7d".toList)

/-- Interior of the well-formed example verdict payload. -/
def midYes : Str := ("\"status\":\"Yes\",\"confidence\":0.9,\"citation\":\"sec 4.2\"".toList)

/-- The well-formed example verdict payload of the specification, spelled
as an opening brace, the interior and a closing brace. -/
def payloadYes : Str := obr :: (midYes ++ [cbr])

/-- The decoded form of payloadYes (the confidence value is spelled the way
the number parser assembles it). -/
def jsonYes : Json :=
  Json.obj [ (statusKey, Json.strv ("Yes".toList))
           , (confidenceKey, Json.num ((0 : ℚ) + 9 / ((10 : ℕ) : ℚ)))
           , (citationKey, Json.strv ("sec 4.2".toList)) ]

/-- The example payload embedded in prose whose trailing part contains a
closing brace. -/
def replyTrailBrace : Str := ("Sure: ".toList) ++ payloadYes ++ (" :-\x7d".toList)

/-- Decoded payload whose confidence field is the number zero. -/
def payloadZero : Json := Json.obj [(confidenceKey, Json.num 0)]

/-- Decoded payload whose confidence field is the number three halves. -/
def payloadW : Json := Json.obj [(confidenceKey, Json.num (3/2))]

/-- Decoded payload whose confidence field is the falsy boolean false. -/
def payloadFalse : Json := Json.obj [(confidenceKey, Json.bool false)]

/-- Decoded payload whose confidence field is the truthy non-numeric
string "abc". -/
def payloadAbc : Json := Json.obj [(confidenceKey, Json.strv ("abc".toList))]

theorem truthy_num (c : ℚ) (hc : c ≠ 0) : truthy (Json.num c) = true := by
  simp [truthy, hc]

theorem normConfidence_num (c : ℚ) (hc : c ≠ 0) :
    normConfidence (some (Json.num c)) = some (clamp01 c) := by
  simp [normConfidence, jsOr, truthy, toNum, hc]

theorem normConfidence_zero : normConfidence (some (Json.num 0)) = some (clamp01 (1/2)) := rfl

theorem normConfidence_none : normConfidence none = some (clamp01 (1/2)) := rfl

theorem clamp01_half : clamp01 (1/2) = 1/2 := by norm_num [clamp01]

theorem normConfidence_falsy (v : Json) (hv : truthy v = false) :
    normConfidence (some v) = some (1/2) := by
  unfold normConfidence jsOr
  show Option.map clamp01 (toNum (if truthy v = true then v else Json.num (1/2))) =
    some (1/2)
  rw [hv]
  show some (clamp01 (1/2)) = some (1/2)
  rw [clamp01_half]

theorem normConfidence_truthy (v : Json) (hv : truthy v = true) :
    normConfidence (some v) = (toNum v).map clamp01 := by
  unfold normConfidence jsOr
  show Option.map clamp01 (toNum (if truthy v = true then v else Json.num (1/2))) =
    Option.map clamp01 (toNum v)
  rw [hv]
  rfl

theorem dropWhile_until_char (c : Char) : ∀ (pre rest : Str), c ∉ pre →
    (pre ++ c :: rest).dropWhile (fun a => !(a == c)) = c :: rest := by
  intro pre
  induction pre with
  | nil => intro rest _; simp [List.dropWhile]
  | cons a as ih =>
    intro rest h
    have ha : ¬ a = c := fun e => h (by simp [e])
    have hm : c ∉ as := fun m => h (List.mem_cons_of_mem _ m)
    simp only [List.cons_append, List.dropWhile_cons]
    simp [ha, ih rest hm]

theorem firstToLastBrace_append (pre mid post : Str) (hpre : obr ∉ pre) (hpost : cbr ∉ post) :
    firstToLastBrace (pre ++ (obr :: (mid ++ [cbr])) ++ post) = some (obr :: (mid ++ [cbr])) := by
  have h1 : (pre ++ (obr :: (mid ++ [cbr])) ++ post).dropWhile (fun a => !(a == obr)) =
      obr :: (mid ++ [cbr] ++ post) := by
    have := dropWhile_until_char obr pre (mid ++ [cbr] ++ post) hpre
    simpa [List.append_assoc] using this
  have hrev : (obr :: (mid ++ [cbr] ++ post)).reverse =
      post.reverse ++ cbr :: (mid.reverse ++ [obr]) := by
    simp [List.reverse_append]
  have h2 : (obr :: (mid ++ [cbr] ++ post)).reverse.dropWhile (fun a => !(a == cbr)) =
      cbr :: (mid.reverse ++ [obr]) := by
    rw [hrev]
    exact dropWhile_until_char cbr post.reverse (mid.reverse ++ [obr]) (by simpa using hpost)
  unfold firstToLastBrace
  simp only [h1, h2]
  simp

theorem processQuestion_questionId (ps : List Policy) (q : Question) (c : Except Unit Str)
    (pg : Nat) : (processQuestion ps q c pg).questionId = q.id := by
  cases c with
  | error e => rfl
  | ok reply =>
    cases h : analysisPayload reply with
    | none => simp [processQuestion, h, normalizeResult]
    | some j => cases j <;> simp [processQuestion, h, normalizeResult, transportFallback]

theorem analysisLoop_length (ps : List Policy) (oracle : Nat → Str → Except Unit Str)
    (pg : Nat → Nat) : ∀ (qs : List Question) (i : Nat),
    (analysisLoop ps oracle pg qs i).length = qs.length := by
  intro qs
  induction qs with
  | nil => intro i; rfl
  | cons q qs ih => intro i; simp [analysisLoop, ih]

theorem analysisLoop_get? (ps : List Policy) (oracle : Nat → Str → Except Unit Str)
    (pg : Nat → Nat) : ∀ (qs : List Question) (i j : Nat) (h : j < qs.length),
    (analysisLoop ps oracle pg qs i)[j]? =
      some (processQuestion ps qs[j] (oracle (i + j) (buildPrompt qs[j] ps)) (pg (i + j))) := by
  intro qs
  induction qs with
  | nil => intro i j h; exact absurd h (by simp)
  | cons q qs ih =>
    intro i j h
    cases j with
    | zero => simp [analysisLoop]
    | succ j2 =>
      have h2 : j2 < qs.length := by simpa using h
      have hx := ih (i + 1) j2 h2
      simp only [analysisLoop, List.getElem?_cons_succ, List.getElem_cons_succ]
      rw [hx]
      have e1 : i + 1 + j2 = i + (j2 + 1) := by omega
      rw [e1]

theorem analysisLoop_map_qid (ps : List Policy) (oracle : Nat → Str → Except Unit Str)
    (pg : Nat → Nat) : ∀ (qs : List Question) (i : Nat),
    (analysisLoop ps oracle pg qs i).map (fun r => r.questionId) =
      qs.map (fun q => q.id) := by
  intro qs
  induction qs with
  | nil => intro i; rfl
  | cons q qs ih => intro i; simp [analysisLoop, processQuestion_questionId, ih]

theorem handleAnalysis_ok (qs : List Question) (ps : List Policy) (c : Char) (k : Str)
    (oracle : Nat → Str → Except Unit Str) (pg : Nat → Nat) :
    handleAnalysis (some qs) (some ps) (some (c :: k)) oracle pg =
      .ok (analysisLoop ps oracle pg qs 0) := rfl

/-- C1: for every non-empty question list and non-empty policy list, with
the backend credential configured, handleAnalysis succeeds with exactly one
result per input question, whatever the backend does; the questionId fields
of the results are exactly the input question ids in order, so when the
input ids are pairwise distinct (the data-model invariant) the matching of
results to questions through questionId is a bijection. -/
theorem c1_batch_bijection (qs : List Question) (ps : List Policy) (c : Char) (k : Str)
    (oracle : Nat → Str → Except Unit Str) (pg : Nat → Nat)
    (hq : qs ≠ []) (hp : ps ≠ []) :
    ∃ rs, handleAnalysis (some qs) (some ps) (some (c :: k)) oracle pg = .ok rs ∧
      rs.length = qs.length ∧
      rs.map (fun r => r.questionId) = qs.map (fun q => q.id) ∧
      ((qs.map (fun q => q.id)).Nodup → (rs.map (fun r => r.questionId)).Nodup) := by
  refine ⟨analysisLoop ps oracle pg qs 0, handleAnalysis_ok qs ps c k oracle pg,
    analysisLoop_length ps oracle pg qs 0, analysisLoop_map_qid ps oracle pg qs 0, ?_⟩
  intro h
  rw [analysisLoop_map_qid]
  exact h

/-- Witness for c1_batch_bijection at a concrete two-question batch. -/
theorem c1_batch_bijection_w :
    ∃ rs, handleAnalysis (some [q0, q1]) (some [p0]) (some ['k']) oracleOk pg0 = .ok rs ∧
      rs.length = ([q0, q1] : List Question).length ∧
      rs.map (fun r => r.questionId) = [q0, q1].map (fun q => q.id) ∧
      (([q0, q1].map (fun q => q.id)).Nodup → (rs.map (fun r => r.questionId)).Nodup) :=
  c1_batch_bijection [q0, q1] [p0] 'k' [] oracleOk pg0 (by simp) (by simp)

/-- C10: the returned results are in input-question order: for every
position i, the i-th result answers the i-th input question (its questionId
equals that question's id), for successful and degraded results alike. -/
theorem c10_input_order (qs : List Question) (ps : List Policy) (c : Char) (k : Str)
    (oracle : Nat → Str → Except Unit Str) (pg : Nat → Nat) (i : Nat)
    (hi : i < qs.length) :
    ∃ rs, handleAnalysis (some qs) (some ps) (some (c :: k)) oracle pg = .ok rs ∧
      ∃ r, rs[i]? = some r ∧ r.questionId = qs[i].id := by
  refine ⟨analysisLoop ps oracle pg qs 0, handleAnalysis_ok qs ps c k oracle pg, ?_⟩
  have hx := analysisLoop_get? ps oracle pg qs 0 i hi
  rw [Nat.zero_add] at hx
  exact ⟨_, hx, processQuestion_questionId ps qs[i] _ (pg i)⟩

/-- Witness for c10_input_order at position one of a concrete batch. -/
theorem c10_input_order_w :
    ∃ rs, handleAnalysis (some [q0, q1]) (some [p0]) (some ['k']) oracleOk pg0 = .ok rs ∧
      ∃ r, rs[1]? = some r ∧ r.questionId = ([q0, q1][1]).id :=
  c10_input_order [q0, q1] [p0] 'k' [] oracleOk pg0 1 (by simp)

/-- C7: with the backend credential unset (none, the unset environment
variable) or empty (which the truthiness check treats identically),
handleAnalysis fails with the whole-batch backendUnavailable error for
every question and policy list; the equation holds for every backend
oracle, so no backend exchange is ever consulted. -/
theorem c7_missing_credential (qs : List Question) (ps : List Policy)
    (oracle : Nat → Str → Except Unit Str) (pg : Nat → Nat) :
    handleAnalysis (some qs) (some ps) none oracle pg = .error .backendUnavailable ∧
    handleAnalysis (some qs) (some ps) (some []) oracle pg = .error .backendUnavailable :=
  ⟨rfl, rfl⟩

/-- C6 (amended): the precondition check rejects an absent questions or
policies field with the invalidInput client error, but a present empty list
is truthy in JS and passes the check: an empty question list yields a
successful batch with zero results (the equation holds for every oracle, so
no backend exchange happens in that case). -/
theorem c6_absent_inputs (qso : Option (List Question)) (ps : List Policy)
    (pso : Option (List Policy)) (key : Option Str) (c : Char) (k : Str)
    (oracle : Nat → Str → Except Unit Str) (pg : Nat → Nat) :
    handleAnalysis none pso key oracle pg = .error .invalidInput ∧
    handleAnalysis qso none key oracle pg = .error .invalidInput ∧
    handleAnalysis (some []) (some ps) (some (c :: k)) oracle pg = .ok [] := by
  refine ⟨rfl, ?_, rfl⟩
  cases qso <;> rfl

/-- C6 counterexample: with the credential configured, the empty question
list is not rejected with invalidInput: the batch succeeds with zero
results; and the empty policy list is not rejected either: the batch runs,
consults the backend for its one question and produces one result. -/
theorem c6_empty_accepted :
    handleAnalysis (some []) (some [p0]) (some ['k']) oracleOk pg0 = .ok [] ∧
    ∃ rs, handleAnalysis (some [q0]) (some []) (some ['k']) oracleOk pg0 = .ok rs ∧
      rs.length = 1 :=
  ⟨rfl, _, rfl, rfl⟩

/-- C8: per-question failure isolation.  If one backend exchange (the one
at position j) raises a transport fault while every other exchange behaves
exactly as in a fault-free run, the batch still succeeds with one result
per question, the results at every other position are identical to the
fault-free run, and the result at position j is the degraded verdict:
status Maybe, confidence one half, rationale naming the technical error. -/
theorem c8_failure_isolation (qs : List Question) (ps : List Policy) (c : Char) (k : Str)
    (oracle oracle2 : Nat → Str → Except Unit Str) (pg : Nat → Nat) (j : Nat)
    (hagree : ∀ i, i ≠ j → oracle2 i = oracle i)
    (hfail : ∀ s, oracle2 j s = .error ()) :
    ∃ rs rs2,
      handleAnalysis (some qs) (some ps) (some (c :: k)) oracle pg = .ok rs ∧
      handleAnalysis (some qs) (some ps) (some (c :: k)) oracle2 pg = .ok rs2 ∧
      rs2.length = qs.length ∧
      (∀ i, i ≠ j → rs2[i]? = rs[i]?) ∧
      (∀ hj : j < qs.length, ∃ r, rs2[j]? = some r ∧
        r.status = Json.strv ("Maybe".toList) ∧ r.confidence = some (1/2) ∧
        r.reasoning = some (Json.strv ("Analysis failed due to technical error".toList))) := by
  refine ⟨analysisLoop ps oracle pg qs 0, analysisLoop ps oracle2 pg qs 0,
    handleAnalysis_ok qs ps c k oracle pg, handleAnalysis_ok qs ps c k oracle2 pg,
    analysisLoop_length ps oracle2 pg qs 0, ?_, ?_⟩
  · intro i hij
    by_cases hi : i < qs.length
    · have h1 := analysisLoop_get? ps oracle pg qs 0 i hi
      have h2 := analysisLoop_get? ps oracle2 pg qs 0 i hi
      rw [Nat.zero_add] at h1 h2
      rw [h1, h2, hagree i hij]
    · have hl1 : (analysisLoop ps oracle pg qs 0).length ≤ i := by
        rw [analysisLoop_length]; omega
      have hl2 : (analysisLoop ps oracle2 pg qs 0).length ≤ i := by
        rw [analysisLoop_length]; omega
      rw [List.getElem?_eq_none hl1, List.getElem?_eq_none hl2]
  · intro hj
    have h2 := analysisLoop_get? ps oracle2 pg qs 0 j hj
    rw [Nat.zero_add] at h2
    rw [hfail] at h2
    exact ⟨_, h2, rfl, rfl, rfl⟩

/-- Witness for c8_failure_isolation: a three-question batch whose second
exchange faults. -/
theorem c8_failure_isolation_w :
    ∃ rs rs2,
      handleAnalysis (some [q0, q1, q2]) (some [p0]) (some ['k']) oracleOk pg0 = .ok rs ∧
      handleAnalysis (some [q0, q1, q2]) (some [p0]) (some ['k']) oracleFail1 pg0 = .ok rs2 ∧
      rs2.length = ([q0, q1, q2] : List Question).length ∧
      (∀ i, i ≠ 1 → rs2[i]? = rs[i]?) ∧
      (∀ hj : 1 < ([q0, q1, q2] : List Question).length, ∃ r, rs2[1]? = some r ∧
        r.status = Json.strv ("Maybe".toList) ∧ r.confidence = some (1/2) ∧
        r.reasoning = some (Json.strv ("Analysis failed due to technical error".toList))) :=
  c8_failure_isolation [q0, q1, q2] [p0] 'k' [] oracleOk oracleFail1 pg0 1
    (fun i hij => by simp [oracleFail1, hij]) (fun s => rfl)

/-- C2 evaluated at the failing input: a backend reply decoding to a
payload with status "Unknown" and confidence 5 produces a result whose
status is the unrecognized string "Unknown" — not one of Yes, No, Maybe —
because the falsy-or default at route.ts line 256 passes every truthy value
through, and whose citation relevanceScore is the raw out-of-range 5
(line 262 copies the unclamped confidence); only the confidence field
itself is clamped, to 1.  This contradicts the AnalysisResult interface of
components.tsx, which declares status as the union of Yes, No and Maybe. -/
theorem c2_normalizer_escape :
    (processQuestion [p0] q0 (.ok replyUnknown) 1).status = Json.strv ("Unknown".toList) ∧
    (Json.strv ("Unknown".toList) ≠ Json.strv ("Yes".toList) ∧
     Json.strv ("Unknown".toList) ≠ Json.strv ("No".toList) ∧
     Json.strv ("Unknown".toList) ≠ Json.strv ("Maybe".toList)) ∧
    ((processQuestion [p0] q0 (.ok replyUnknown) 1).citations.map
      (fun ct => ct.relevanceScore)) = [Json.num 5] ∧
    ¬ ((5 : ℚ) ≤ 1) ∧
    (processQuestion [p0] q0 (.ok replyUnknown) 1).confidence = some (clamp01 5) ∧
    clamp01 5 = 1 := by
  refine ⟨rfl, ⟨?_, ?_, ?_⟩, rfl, by norm_num, rfl, by norm_num [clamp01]⟩
  all_goals intro h
  all_goals injection h with h2
  all_goals exact absurd h2 (by decide)

/-- C3 (amended): for a decoded payload whose confidence field is a number
c, the result confidence is the clamped max(0, min(1, c)) only when c is
nonzero; the falsy-or default of route.ts line 257 maps c = 0 — like an
absent field — to 0.5.  In full, the 0.5 default is substituted exactly
when the field is absent or falsy (conjuncts two and three), while every
truthy field value — numeric or not — is kept and coerced through
Math.min/Math.max (conjunct four): a numeric string clamps to its own
value and a non-numeric truthy value such as "abc" yields NaN, never the
default. -/
theorem c3_confidence_clamp (q : Question) (ps : List Policy) (pg : Nat) (j : Json) :
    (∀ c : ℚ, getField j confidenceKey = some (Json.num c) →
      (normalizeResult q ps j pg).confidence =
        some (if c = 0 then (1/2 : ℚ) else clamp01 c)) ∧
    (getField j confidenceKey = none →
      (normalizeResult q ps j pg).confidence = some (1/2)) ∧
    (∀ v, getField j confidenceKey = some v → truthy v = false →
      (normalizeResult q ps j pg).confidence = some (1/2)) ∧
    (∀ v, getField j confidenceKey = some v → truthy v = true →
      (normalizeResult q ps j pg).confidence = (toNum v).map clamp01) := by
  refine ⟨?_, ?_, ?_, ?_⟩
  · intro c h
    show normConfidence (getField j confidenceKey) = _
    rw [h]
    by_cases hc : c = 0
    · subst hc
      rw [normConfidence_zero, clamp01_half, if_pos rfl]
    · rw [normConfidence_num c hc, if_neg hc]
  · intro h
    show normConfidence (getField j confidenceKey) = _
    rw [h, normConfidence_none, clamp01_half]
  · intro v h hv
    show normConfidence (getField j confidenceKey) = _
    rw [h, normConfidence_falsy v hv]
  · intro v h hv
    show normConfidence (getField j confidenceKey) = _
    rw [h, normConfidence_truthy v hv]

/-- C3 counterexample: confidence 0 decoded from the payload is a numeric
value, for which the claim demands max(0, min(1, 0)) = 0, but the
normalization produces the 0.5 default instead. -/
theorem c3_zero_not_clamped :
    getField payloadZero confidenceKey = some (Json.num 0) ∧
    (normalizeResult q0 [p0] payloadZero 1).confidence = some (1/2) ∧
    (1/2 : ℚ) ≠ max 0 (min 1 (0 : ℚ)) := by
  refine ⟨rfl, ?_, by norm_num⟩
  show normConfidence (getField payloadZero confidenceKey) = _
  rw [show getField payloadZero confidenceKey = some (Json.num 0) from rfl,
    normConfidence_zero, clamp01_half]

/-- Witness for c3_confidence_clamp, exercising all four conjuncts: a
numeric confidence of three halves, an absent field, a falsy boolean
field, and the truthy non-numeric string "abc" (whose coercion is NaN,
modeled as none, not the 0.5 default). -/
theorem c3_confidence_clamp_w :
    (normalizeResult q0 [p0] payloadW 1).confidence =
      some (if (3/2 : ℚ) = 0 then (1/2 : ℚ) else clamp01 (3/2)) ∧
    (normalizeResult q0 [p0] (Json.obj []) 1).confidence = some (1/2) ∧
    (normalizeResult q0 [p0] payloadFalse 1).confidence = some (1/2) ∧
    (normalizeResult q0 [p0] payloadAbc 1).confidence =
      (toNum (Json.strv ("abc".toList))).map clamp01 :=
  ⟨(c3_confidence_clamp q0 [p0] 1 payloadW).1 (3/2) rfl,
   (c3_confidence_clamp q0 [p0] 1 (Json.obj [])).2.1 rfl,
   (c3_confidence_clamp q0 [p0] 1 payloadFalse).2.2.1 (Json.bool false) rfl rfl,
   (c3_confidence_clamp q0 [p0] 1 payloadAbc).2.2.2 (Json.strv ("abc".toList)) rfl rfl⟩

/-- C4 (amended): the reply parser extracts the span from the first opening
brace to the last closing brace of the reply (a greedy match), not the
first balanced span.  For every reply made of the well-formed example
verdict payload surrounded by prose with no opening brace before it and no
closing brace after it, that span is exactly the payload and decoding
succeeds: status Yes, confidence nine tenths, citation sec 4.2. -/
theorem c4_greedy_span (pre post : Str) (q : Question) (ps : List Policy) (pg : Nat)
    (hpre : obr ∉ pre) (hpost : cbr ∉ post) :
    (processQuestion ps q (.ok (pre ++ payloadYes ++ post)) pg).status =
      Json.strv ("Yes".toList) ∧
    (processQuestion ps q (.ok (pre ++ payloadYes ++ post)) pg).confidence = some (9/10) ∧
    ((processQuestion ps q (.ok (pre ++ payloadYes ++ post)) pg).citations.map
      (fun ct => ct.text)) = [Json.strv ("sec 4.2".toList)] := by
  have hspan : firstToLastBrace (pre ++ payloadYes ++ post) = some payloadYes :=
    firstToLastBrace_append pre midYes post hpre hpost
  have hp2 : analysisPayload (pre ++ payloadYes ++ post) = some jsonYes := by
    unfold analysisPayload
    rw [hspan]
    rfl
  have hq2 : processQuestion ps q (.ok (pre ++ payloadYes ++ post)) pg =
      normalizeResult q ps jsonYes pg := by
    unfold processQuestion
    simp only [hp2]
    rfl
  rw [hq2]
  refine ⟨rfl, ?_, rfl⟩
  show normConfidence (getField jsonYes confidenceKey) = _
  rw [show getField jsonYes confidenceKey =
    some (Json.num ((0 : ℚ) + 9 / ((10 : ℕ) : ℚ))) from rfl]
  rw [normConfidence_num _ (by norm_num)]
  norm_num [clamp01]

/-- Witness for c4_greedy_span at the prose of the specification example. -/
theorem c4_greedy_span_w :
    (processQuestion [p0] q0
      (.ok (("Sure, here:\n".toList) ++ payloadYes ++ ("\nHope that helps.".toList))) 1).status =
      Json.strv ("Yes".toList) ∧
    (processQuestion [p0] q0
      (.ok (("Sure, here:\n".toList) ++ payloadYes ++ ("\nHope that helps.".toList))) 1).confidence =
      some (9/10) ∧
    ((processQuestion [p0] q0
      (.ok (("Sure, here:\n".toList) ++ payloadYes ++ ("\nHope that helps.".toList))) 1).citations.map
      (fun ct => ct.text)) = [Json.strv ("sec 4.2".toList)] :=
  c4_greedy_span ("Sure, here:\n".toList) ("\nHope that helps.".toList) q0 [p0] 1
    (by decide) (by decide)

/-- C4 counterexample: the same well-formed payload embedded in prose whose
trailing part contains one closing brace.  The claim demands that the first
balanced span be located and decoded to status Yes, but the greedy match
swallows the trailing prose, JSON.parse throws, and the degraded verdict
Maybe is produced instead. -/
theorem c4_trailing_brace :
    (processQuestion [p0] q0 (.ok replyTrailBrace) 1).status = Json.strv ("Maybe".toList) ∧
    Json.strv ("Maybe".toList) ≠ Json.strv ("Yes".toList) := by
  refine ⟨rfl, ?_⟩
  intro h
  injection h with h2
  exact absurd h2 (by decide)

/-- C5 (amended): whenever JSON.parse fails on the selected text (the
greedy brace span when the reply has one, otherwise the whole reply), the
parser does not raise and the result carries the degraded verdict: status
Maybe, confidence one half, rationale the fixed message of route.ts line
247 — which reads in full "AI analysis completed but response format was
unclear", not the shorter wording of the claim — and citation equal to the
first 200 characters of the raw reply (the reply is nonempty for every
reachable backend exchange because callGemini substitutes a fixed
placeholder for empty replies). -/
theorem c5_parse_fallback (q : Question) (ps : List Policy) (pg : Nat) (reply : Str)
    (hne : reply ≠ []) (hfail : analysisPayload reply = none) :
    (processQuestion ps q (.ok reply) pg).status = Json.strv ("Maybe".toList) ∧
    (processQuestion ps q (.ok reply) pg).confidence = some (1/2) ∧
    (processQuestion ps q (.ok reply) pg).reasoning =
      some (Json.strv ("AI analysis completed but response format was unclear".toList)) ∧
    ((processQuestion ps q (.ok reply) pg).citations.map (fun ct => ct.text)) =
      [Json.strv (reply.take 200)] := by
  have hq2 : processQuestion ps q (.ok reply) pg =
      normalizeResult q ps (fallbackPayload reply) pg := by
    unfold processQuestion
    simp only [hfail]
  rw [hq2]
  refine ⟨rfl, ?_, rfl, ?_⟩
  · show normConfidence (getField (fallbackPayload reply) confidenceKey) = _
    rw [show getField (fallbackPayload reply) confidenceKey =
      some (Json.num (1/2)) from rfl]
    rw [normConfidence_num _ (by norm_num), clamp01_half]
  · cases reply with
    | nil => exact absurd rfl hne
    | cons a as => rfl

/-- Witness for c5_parse_fallback at the plain-prose reply of the
specification example. -/
theorem c5_parse_fallback_w :
    (("The policy seems fine".toList) ≠ ([] : Str)) ∧
    analysisPayload ("The policy seems fine".toList) = none ∧
    ((processQuestion [p0] q0 (.ok ("The policy seems fine".toList)) 1).status =
      Json.strv ("Maybe".toList) ∧
    (processQuestion [p0] q0 (.ok ("The policy seems fine".toList)) 1).confidence =
      some (1/2) ∧
    (processQuestion [p0] q0 (.ok ("The policy seems fine".toList)) 1).reasoning =
      some (Json.strv ("AI analysis completed but response format was unclear".toList)) ∧
    ((processQuestion [p0] q0 (.ok ("The policy seems fine".toList)) 1).citations.map
      (fun ct => ct.text)) = [Json.strv (("The policy seems fine".toList).take 200)]) :=
  ⟨by decide, rfl, c5_parse_fallback q0 [p0] 1 ("The policy seems fine".toList) (by decide) rfl⟩

/-- C5 counterexample: the reply "42" has no brace span, so by the claim
the fallback must apply with citation "42" (its first 200 characters) — but
the whole reply is itself valid JSON, JSON.parse succeeds with the number
42, no fallback runs, and the result instead carries the placeholder
citation and no rationale at all. -/
theorem c5_braceless_json :
    firstToLastBrace ("42".toList) = none ∧
    ((processQuestion [p0] q0 (.ok ("42".toList)) 1).citations.map (fun ct => ct.text)) =
      [Json.strv ("No specific citation provided".toList)] ∧
    Json.strv ("No specific citation provided".toList) ≠ Json.strv (("42".toList).take 200) ∧
    (processQuestion [p0] q0 (.ok ("42".toList)) 1).reasoning = none := by
  refine ⟨rfl, rfl, ?_, rfl⟩
  intro h
  injection h with h2
  exact absurd h2 (by decide)

/-- C9 (amended): the policy context embedded in the prompt never exceeds
the 8000-character budget and is a contiguous prefix of the concatenated
labeled documents (earlier documents are favored, none is dropped from the
middle); the prompt is that context surrounded by the fixed framing and the
question text, so the budget bounds the context, not the whole prompt. -/
theorem c9_context_budget (ps : List Policy) (q : Question) :
    (policyContext ps).length ≤ 8000 ∧
    (∃ rest, policyContext ps ++ rest = joinSep ("\n\n".toList) (ps.map policyLabel)) ∧
    buildPrompt q ps = promptHead ++ q.text ++ promptMid ++ policyContext ps ++ promptTail := by
  refine ⟨?_, ⟨(joinSep ("\n\n".toList) (ps.map policyLabel)).drop 8000,
    List.take_append_drop _ _⟩, rfl⟩
  unfold policyContext
  rw [List.length_take]
  exact min_le_left _ _

/-- C9 counterexample: with one policy document of 9000 characters, the
policy context is truncated to exactly 8000 characters, yet the prompt
passed to the backend is strictly longer than the 8000-character budget
because the fixed framing and the question text surround the context. -/
theorem c9_prompt_exceeds :
    8000 < (buildPrompt q0 [bigPolicy]).length ∧
    (policyContext [bigPolicy]).length = 8000 := by
  have hlab : (policyLabel bigPolicy).length = 9020 := by
    show (("[Document: ".toList) ++ ("Big.pdf".toList) ++ ("]\n".toList) ++
      List.replicate 9000 'a').length = 9020
    simp only [List.length_append, List.length_replicate]
    decide
  have hctx : (policyContext [bigPolicy]).length = 8000 := by
    unfold policyContext
    rw [show joinSep ("\n\n".toList) ([bigPolicy].map policyLabel) =
      policyLabel bigPolicy from rfl]
    rw [List.length_take, hlab]
    norm_num
  have hh : 0 < promptHead.length := by decide
  refine ⟨?_, hctx⟩
  unfold buildPrompt
  simp only [List.length_append]
  omega
